import Mathlib

/-
  Verification development for the dara_opsc repository.

  The repository has two computation paths:
  * src/src/metrics.py : compute_product_metrics — the footprint-metrics
    engine (a single structured record derived from a product dict).
  * src/data/.ipynb_checkpoints/test_cbor-checkpoint.py : the pass-geometry
    loop — one record per valid timestamp, as seen from a fixed observer.

  Python floats are embedded as real numbers; the external skyfield
  propagator and the datetime formatting functions are taken as parameters
  (the spec treats the propagator as an injected collaborator).  Python
  truthiness tests on optional float values (`if swath_km else None`) are
  embedded exactly: an Option ℝ is truthy iff it is `some x` with x ≠ 0.
-/

open scoped Classical

noncomputable section

/-! ## Shared data model -/

/-- String constants used by the concrete witness inputs. -/
def noStr : String := ""

def strS : String := "s"

def strA : String := "A"

def strB : String := "B"

def strIso : String := "iso"

def strT : String := "t"

/-- A geodetic sub-satellite point as produced by the propagator:
`subpoint().latitude.degrees`, `.longitude.degrees`, `.elevation.km`. -/
structure Subpoint where
  lat_deg : ℝ
  lon_deg : ℝ
  alt_km : ℝ


/-- A latitude/longitude pair (the first/last subpoint output fields). -/
structure LatLon where
  lat_deg : ℝ
  lon_deg : ℝ


/-- The `tle` mapping of the input record.  Each key may be absent.
(`product.get('tle', {})` yields the all-absent dict.) -/
structure TLEDict where
  name : Option String
  line1 : Option String
  line2 : Option String

/-- The `projection_cfg` mapping.  `image_width` is read with
`int(proj.get('image_width'))`, which raises when the key is absent;
`scan_angle` is read with `proj.get('scan_angle', 0.0)`. -/
structure ProjectionCfg where
  image_width : Option ℤ
  scan_angle : Option ℝ

/-- The decoded product record consumed by compute_product_metrics.
`timestamps` uses `product.get('timestamps', [])`, so an absent key is
identified with the empty list. -/
structure Product where
  projection_cfg : Option ProjectionCfg
  timestamps : List ℝ
  tle : Option TLEDict

/-! ## Shared helpers (src/src/metrics.py) -/

/-- `math.radians`: degrees to radians. -/
def radians (x : ℝ) : ℝ := x * Real.pi / 180

/-- `haversine_km` from src/src/metrics.py lines 61-68: spherical-earth
great-circle distance, radius R = 6371.0 km. -/
def haversine_km (lat1 lon1 lat2 lon2 : ℝ) : ℝ :=
  let R : ℝ := 6371.0
  let phi1 := radians lat1
  let phi2 := radians lat2
  let dphi := radians (lat2 - lat1)
  let dlambda := radians (lon2 - lon1)
  let a := Real.sin (dphi / 2.0) ^ 2 +
    Real.cos phi1 * Real.cos phi2 * Real.sin (dlambda / 2.0) ^ 2
  let c := 2 * Real.arcsin (Real.sqrt a)
  R * c

/-- Python truthiness of an optional float: `None` and `0.0` are falsy,
every other float is truthy. -/
def optTruthy (o : Option ℝ) : Prop := o.getD 0 ≠ 0

/-- `proj.get('scan_angle', 0.0)` where the whole `projection_cfg` mapping
defaults to the empty dict. -/
def scan_angle_of (product : Product) : ℝ :=
  ((product.projection_cfg.getD ⟨none, none⟩).scan_angle).getD 0

/-- `mid_ts = 0.5 * (timestamps[0] + timestamps[-1])` (line 21 of
metrics.py). Defined via `headI`/`getLastI`; only used on non-empty
series, where these agree with Python indexing. -/
def mid_ts_of (product : Product) : ℝ :=
  0.5 * (product.timestamps.headI + product.timestamps.getLastI)

/-- The across-track swath value `2.0 * sub_mid.elevation.km *
tan(radians(scan_angle_deg / 2.0))` computed when the scan angle is
truthy (metrics.py line 77). -/
def swath_val (subpointAt : ℝ → Subpoint) (product : Product) : ℝ :=
  2.0 * (subpointAt (mid_ts_of product)).alt_km *
    Real.tan (radians (scan_angle_of product / 2.0))

/-- The along-track length: haversine distance between the first and last
sub-satellite points (metrics.py lines 70-71). -/
def along_val (subpointAt : ℝ → Subpoint) (product : Product) : ℝ :=
  haversine_km (subpointAt product.timestamps.headI).lat_deg
    (subpointAt product.timestamps.headI).lon_deg
    (subpointAt product.timestamps.getLastI).lat_deg
    (subpointAt product.timestamps.getLastI).lon_deg

/-- Models the CPython datetime range: `datetime.fromtimestamp` /
`datetime.utcfromtimestamp` support POSIX seconds from year 1
(-62135596800) up to but excluding year 10000 (253402300800) and raise
outside it. -/
def datetimeRangeOK (x : ℝ) : Prop :=
  -62135596800 ≤ x ∧ x < 253402300800

/-- Error kinds of compute_product_metrics, in the order the source can
raise them: `int(None)` / `int(<bad>)` raises a conversion error, then
`ValueError("no timestamps found")`, then
`datetime.fromtimestamp(mid_ts, tz=utc)` raises for a mid timestamp
outside the datetime year range, then `ValueError("TLE lines
missing")`. -/
inductive MetricsError
  | ImageWidthConversionError
  | EmptyTimestampSeries
  | MidTimestampRangeError
  | MissingTLE
deriving DecidableEq

/-- The footprint metrics record assembled at metrics.py lines 88-102. -/
structure FootprintMetrics where
  image_width_px : ℤ
  image_height_px : ℕ
  mid_datetime : String
  mid_subpoint : Subpoint
  first_subpoint : LatLon
  last_subpoint : LatLon
  along_track_length_km : ℝ
  along_track_pixel_size_m : ℝ
  across_track_swath_km : Option ℝ
  across_track_pixel_size_m : Option ℝ
  total_ground_area_km2 : Option ℝ
  per_pixel_area_km2 : Option ℝ
  fov_deg : Option ℝ

/-- The success path of compute_product_metrics: all derived quantities and
the final record (metrics.py lines 20-102), for a given propagator
`subpointAt` (models `sat.at(to_sf_time(t)).subpoint()`) and ISO formatter
`isoUTC` (models `datetime.fromtimestamp(ts, tz=utc).isoformat()`).
In the source the mid-time is computed before the TLE check; both are
pure here, so the success-path record is assembled in one place. -/
def mkMetrics (subpointAt : ℝ → Subpoint) (isoUTC : ℝ → String)
    (product : Product) (image_width : ℤ) : FootprintMetrics :=
  let image_height := product.timestamps.length
  let sub_mid := subpointAt (mid_ts_of product)
  let sub0 := subpointAt product.timestamps.headI
  let subN := subpointAt product.timestamps.getLastI
  let along_track_length_km := along_val subpointAt product
  let pix_along_m := along_track_length_km * 1000.0 / (image_height : ℝ)
  let scan_angle_deg := scan_angle_of product
  -- swath_km = 2.0 * elev * tan(half) if scan_angle_deg else None
  let swath_km : Option ℝ :=
    if scan_angle_deg ≠ 0 then some (swath_val subpointAt product) else none
  -- pix_across_m = (swath_km * 1000.0) / image_width if swath_km else None
  let pix_across_m : Option ℝ :=
    if optTruthy swath_km
    then some (swath_km.getD 0 * 1000.0 / (image_width : ℝ)) else none
  -- area_km2 = swath_km * along_track_length_km if swath_km else None
  let area_km2 : Option ℝ :=
    if optTruthy swath_km
    then some (swath_km.getD 0 * along_track_length_km) else none
  -- per_pixel_km2 = (pix_along_m * pix_across_m) / 1e6 if pix_across_m else None
  let per_pixel_km2 : Option ℝ :=
    if optTruthy pix_across_m
    then some (pix_along_m * pix_across_m.getD 0 / 1000000.0) else none
  { image_width_px := image_width
    image_height_px := image_height
    mid_datetime := isoUTC (mid_ts_of product)
    mid_subpoint := sub_mid
    first_subpoint := ⟨sub0.lat_deg, sub0.lon_deg⟩
    last_subpoint := ⟨subN.lat_deg, subN.lon_deg⟩
    along_track_length_km := along_track_length_km
    along_track_pixel_size_m := pix_along_m
    -- float(swath_km) if swath_km else None
    across_track_swath_km := if optTruthy swath_km then swath_km else none
    -- float(pix_across_m) if pix_across_m else None
    across_track_pixel_size_m :=
      if optTruthy pix_across_m then pix_across_m else none
    -- float(area_km2) if area_km2 else None
    total_ground_area_km2 := if optTruthy area_km2 then area_km2 else none
    -- float(per_pixel_km2) if per_pixel_km2 else None
    per_pixel_area_km2 := if optTruthy per_pixel_km2 then per_pixel_km2 else none
    -- fov_deg = float(scan_angle_deg) if scan_angle_deg else None
    fov_deg := if scan_angle_deg ≠ 0 then some scan_angle_deg else none }

/-- compute_product_metrics (src/src/metrics.py lines 6-104): the
validation sequence followed by the success-path record.
Order per the source: `int(proj.get('image_width'))` first, then the
empty-timestamps check, then `datetime.fromtimestamp(mid_ts, tz=utc)` at
line 22 (which raises when the mid timestamp is outside the datetime
year range), then the TLE-lines check. -/
def compute_product_metrics (subpointAt : ℝ → Subpoint) (isoUTC : ℝ → String)
    (product : Product) : Except MetricsError FootprintMetrics :=
  match (product.projection_cfg.getD ⟨none, none⟩).image_width with
  | none => .error .ImageWidthConversionError
  | some image_width =>
    if product.timestamps.length = 0 then .error .EmptyTimestampSeries
    else if ¬ datetimeRangeOK (mid_ts_of product) then
      .error .MidTimestampRangeError
    else
      let tle := product.tle.getD ⟨none, none, none⟩
      -- if not line1 or not line2: absent keys give None (falsy), and the
      -- empty string is falsy.
      if tle.line1.getD noStr = noStr ∨ tle.line2.getD noStr = noStr then
        .error .MissingTLE
      else .ok (mkMetrics subpointAt isoUTC product image_width)

/-! ## Pass geometry engine (src/data/.ipynb_checkpoints/test_cbor-checkpoint.py) -/

/-- One element of the `timestamps` series as decoded from CBOR.  Python
booleans are `int` instances and are folded into `num`; the three
non-finite float values are `int`/`float` instances and so pass the
`isinstance(t, (int, float))` test, but are kept separate because their
comparisons and conversions differ from finite values. -/
inductive TSEntry
  | num (x : ℝ)
  | inf
  | ninf
  | nan
  | nonNumeric

/-- The loop's skip condition `not isinstance(t, (int, float)) or t < 0`:
non-numeric values fail the isinstance test; `-inf < 0` is True; `inf < 0`
and `nan < 0` are both False, so those entries are NOT skipped. -/
def pySkip : TSEntry → Prop
  | .num x => x < 0
  | .inf => False
  | .ninf => True
  | .nan => False
  | .nonNumeric => True

/-- Models CPython `datetime.utcfromtimestamp(t)`: `none` when the call
raises.  It raises on non-finite floats and on values at or beyond the
year-10000 bound 253402300800 s (and below the year-1 bound); finite
values inside the representable range convert. -/
def utcfromtimestamp? : TSEntry → Option ℝ
  | .num x => if -62135596800 ≤ x ∧ x < 253402300800 then some x else none
  | _ => none

/-- Topocentric observables (az/el/range) plus the sub-satellite point, as
returned by the propagator for one instant. -/
structure PassObs where
  az_deg : ℝ
  el_deg : ℝ
  dist_km : ℝ
  lat_deg : ℝ
  lon_deg : ℝ

/-- One output record of the pass-geometry loop. -/
structure PassRecord where
  timestamp : String
  azimuth_deg : ℝ
  elevation_deg : ℝ
  distance_km : ℝ
  lat_deg : ℝ
  lon_deg : ℝ

/-- `round(x, n)`: rounding to n decimal places (the tie-breaking rule of
Python floats differs at exact half-way points, which no claim relies
on). -/
def roundTo (n : ℕ) (x : ℝ) : ℝ := (round (x * 10 ^ n) : ℤ) / 10 ^ n

/-- One record of the loop body: `ts.utc` is rebuilt from calendar fields
without the microsecond term, so the propagator is queried at the
whole-second floor of the timestamp; the record rounds az/el/range to 3
decimals and lat/lon to 4.  `fmt` models
`datetime.utcfromtimestamp(t).strftime("%Y-%m-%d %H:%M:%S")`. -/
def mkPassRecord (obs : ℝ → PassObs) (fmt : ℝ → String) (t : ℝ) : PassRecord :=
  let o := obs ((⌊t⌋ : ℤ) : ℝ)
  { timestamp := fmt t
    azimuth_deg := roundTo 3 o.az_deg
    elevation_deg := roundTo 3 o.el_deg
    distance_km := roundTo 3 o.dist_km
    lat_deg := roundTo 4 o.lat_deg
    lon_deg := roundTo 4 o.lon_deg }

/-- Error kinds of the pass-geometry script: the `if not tle` exit, a
KeyError from `tle['line1']`/`['line2']`/`['name']`, an error raised by
`EarthSatellite` on malformed lines, the `if not timestamps` exit, and an
error from `datetime.utcfromtimestamp` inside the loop. -/
inductive PassError
  | MissingTLE
  | TLEKeyError
  | PropagatorError
  | EmptyTimestampSeries
  | TimeConversionError
deriving DecidableEq

/-- Python truthiness of the tle dict: `data.get("tle")` is falsy when the
key is absent (None) or the dict is empty. -/
def tleDictEmpty (t : TLEDict) : Prop :=
  t.name = none ∧ t.line1 = none ∧ t.line2 = none

/-- The input consumed by the pass-geometry script: the decoded `tle` and
`timestamps` fields (absent keys give `none`). -/
structure PassInput where
  tle : Option TLEDict
  timestamps : Option (List TSEntry)

/-- The `for t in timestamps` loop of the script: skipped entries produce
nothing, surviving entries are converted (a conversion failure aborts the
whole call) and produce one record each, in input order. -/
def pass_records_loop (obs : ℝ → PassObs) (fmt : ℝ → String) :
    List TSEntry → Except PassError (List PassRecord)
  | [] => .ok []
  | e :: rest =>
    if pySkip e then pass_records_loop obs fmt rest
    else
      match utcfromtimestamp? e with
      | none => .error .TimeConversionError
      | some t =>
        match pass_records_loop obs fmt rest with
        | .error err => .error err
        | .ok recs => .ok (mkPassRecord obs fmt t :: recs)

/-- The pass-geometry engine (test_cbor-checkpoint.py lines 46-80):
TLE gate, satellite construction, timestamps gate, then the loop.
`obs l1 l2` models the topocentric/subpoint propagator for the satellite
built from the two TLE lines; `satOK l1 l2` models whether
`EarthSatellite` accepts the lines. -/
def compute_pass (obs : String → String → ℝ → PassObs)
    (satOK : String → String → Prop) (fmt : ℝ → String)
    (input : PassInput) : Except PassError (List PassRecord) :=
  match input.tle with
  | none => .error .MissingTLE
  | some tle =>
    if tleDictEmpty tle then .error .MissingTLE
    else
      match tle.line1, tle.line2, tle.name with
      | some l1, some l2, some _ =>
        if satOK l1 l2 then
          match input.timestamps with
          | none => .error .EmptyTimestampSeries
          | some tss =>
            if tss = [] then .error .EmptyTimestampSeries
            else pass_records_loop (obs l1 l2) fmt tss
        else .error .PropagatorError
      | _, _, _ => .error .TLEKeyError

/-- Modelled from the spec: the ordered list of valid-entry times — the
times of the entries the loop keeps, in input order.  Used to compare the
loop's output against the spec's "one record per valid entry, in input
order". -/
def validTimes : List TSEntry → List ℝ
  | [] => []
  | e :: rest =>
    if pySkip e then validTimes rest
    else
      match utcfromtimestamp? e with
      | some t => t :: validTimes rest
      | none => validTimes rest

/-- Modelled from the spec: the number of entries the skip rule discards. -/
def countInvalid : List TSEntry → ℕ
  | [] => 0
  | e :: rest => (if pySkip e then 1 else 0) + countInvalid rest

/-! ## Concrete instances for witnesses and counterexamples -/

/-- A constant formatter standing in for the ISO-8601 serializer. -/
def iso0 : ℝ → String := fun _ => strIso

/-- A constant formatter standing in for strftime. -/
def fmt0 : ℝ → String := fun _ => strT

/-- A propagator whose subpoint moves from longitude 0 to longitude 90
(equator, altitude 500 km) at t = 30. -/
def propA : ℝ → Subpoint := fun t =>
  if t < 30 then ⟨0, 0, 500⟩ else ⟨0, 90, 500⟩

/-- A propagator that always reports the same subpoint (equator, prime
meridian, altitude 500 km). -/
def propB : ℝ → Subpoint := fun _ => ⟨0, 0, 500⟩

/-- Product with two timestamps, image width 1000 and a 90° scan angle. -/
def prodA : Product :=
  ⟨some ⟨some 1000, some 90⟩, [0, 60], some ⟨some strS, some strA, some strB⟩⟩

/-- Product with a single timestamp, image width 1000 and a 90° scan
angle: its along-track length is necessarily zero. -/
def prodB : Product :=
  ⟨some ⟨some 1000, some 90⟩, [0], some ⟨some strS, some strA, some strB⟩⟩

/-- Product with an image width but an empty timestamp series and no tle. -/
def prodEW : Product := ⟨some ⟨some 3, none⟩, [], none⟩

/-- Product lacking `projection_cfg` entirely (and everything else). -/
def prodNoW : Product := ⟨none, [], none⟩

/-- Product with an image width and one timestamp but no tle. -/
def prodNoTLE : Product := ⟨some ⟨some 10, none⟩, [1], none⟩

/-- The metrics record compute_product_metrics produces on `prodA` with
`propA` and `iso0`:  along-track length 6371·(π/2) km, swath 1000 km, all
four across-track fields populated. -/
def mA : FootprintMetrics :=
  { image_width_px := 1000
    image_height_px := 2
    mid_datetime := strIso
    mid_subpoint := ⟨0, 90, 500⟩
    first_subpoint := ⟨0, 0⟩
    last_subpoint := ⟨0, 90⟩
    along_track_length_km := 6371 * (Real.pi / 2)
    along_track_pixel_size_m := 6371 * (Real.pi / 2) * 1000 / 2
    across_track_swath_km := some 1000
    across_track_pixel_size_m := some 1000
    total_ground_area_km2 := some (1000 * (6371 * (Real.pi / 2)))
    per_pixel_area_km2 :=
      some (6371 * (Real.pi / 2) * 1000 / 2 * 1000 / 1000000)
    fov_deg := some 90 }

/-- The metrics record compute_product_metrics produces on `prodB` with
`propB` and `iso0`: the along-track length is 0, so the swath fields are
populated while both area fields are null. -/
def mB : FootprintMetrics :=
  { image_width_px := 1000
    image_height_px := 1
    mid_datetime := strIso
    mid_subpoint := ⟨0, 0, 500⟩
    first_subpoint := ⟨0, 0⟩
    last_subpoint := ⟨0, 0⟩
    along_track_length_km := 0
    along_track_pixel_size_m := 0
    across_track_swath_km := some 1000
    across_track_pixel_size_m := some 1000
    total_ground_area_km2 := none
    per_pixel_area_km2 := none
    fov_deg := some 90 }

/-- An observer function returning constant observables. -/
def obs0 : String → String → ℝ → PassObs := fun _ _ _ => ⟨0, 0, 0, 0, 0⟩

/-- A propagator that accepts any TLE lines. -/
def satOK0 : String → String → Prop := fun _ _ => True

/-- A propagator that rejects the given TLE lines (as skyfield does for
empty strings). -/
def satOKF : String → String → Prop := fun _ _ => False

/-- A timestamp series mixing valid, non-numeric and negative entries. -/
def tssW : List TSEntry := [.num 5, .nonNumeric, .num (-3), .num 7]

/-- Pass input whose only timestamp entry is +inf. -/
def inpInf : PassInput :=
  ⟨some ⟨some strS, some strA, some strB⟩, some [.inf]⟩

/-- Pass input whose TLE dict is present and non-empty but has empty
line strings. -/
def inpEmptyLines : PassInput :=
  ⟨some ⟨some strS, some noStr, some noStr⟩, some [.num 0]⟩

/-- Pass input with no tle key at all. -/
def inpTLENone : PassInput := ⟨none, some [.num 1]⟩

/-- Pass input whose TLE dict has a name but no line keys. -/
def inpKeyErr : PassInput := ⟨some ⟨some strS, none, none⟩, none⟩

end

/-! ## Helper lemmas -/

lemma optTruthy_some (x : ℝ) : optTruthy (some x) ↔ x ≠ 0 := by
  simp [optTruthy]

lemma optTruthy_none : ¬ optTruthy none := by
  simp [optTruthy]

lemma haversine_km_self (lat lon : ℝ) : haversine_km lat lon lat lon = 0 := by
  simp [haversine_km, radians, sub_self]

lemma haversine_km_comm (lat1 lon1 lat2 lon2 : ℝ) :
    haversine_km lat1 lon1 lat2 lon2 = haversine_km lat2 lon2 lat1 lon1 := by
  have hsin : ∀ x y : ℝ,
      Real.sin ((x - y) * Real.pi / 180 / 2.0) ^ 2 =
        Real.sin ((y - x) * Real.pi / 180 / 2.0) ^ 2 := by
    intro x y
    rw [show (x - y) * Real.pi / 180 / 2.0 = -((y - x) * Real.pi / 180 / 2.0) by
      ring]
    rw [Real.sin_neg, neg_sq]
  simp only [haversine_km, radians]
  rw [hsin lat2 lat1, hsin lon2 lon1,
    mul_comm (Real.cos (lat1 * Real.pi / 180)) (Real.cos (lat2 * Real.pi / 180))]

/-- Inversion of the validation sequence: compute_product_metrics returns a
record exactly when image_width is present, the series is non-empty and
both TLE lines are present and non-empty, and the record is the
success-path record. -/
lemma compute_product_metrics_ok_iff {subpointAt : ℝ → Subpoint}
    {isoUTC : ℝ → String} {product : Product} {m : FootprintMetrics} :
    compute_product_metrics subpointAt isoUTC product = .ok m ↔
      ∃ w, (product.projection_cfg.getD ⟨none, none⟩).image_width = some w ∧
        product.timestamps.length ≠ 0 ∧
        datetimeRangeOK (mid_ts_of product) ∧
        ¬((product.tle.getD ⟨none, none, none⟩).line1.getD noStr = noStr ∨
          (product.tle.getD ⟨none, none, none⟩).line2.getD noStr = noStr) ∧
        m = mkMetrics subpointAt isoUTC product w := by
  unfold compute_product_metrics
  cases hw : (product.projection_cfg.getD ⟨none, none⟩).image_width with
  | none => simp
  | some w =>
    by_cases hlen : product.timestamps.length = 0
    · simp [hlen]
    · by_cases hmid : datetimeRangeOK (mid_ts_of product)
      · by_cases htle : (product.tle.getD ⟨none, none, none⟩).line1.getD
            noStr = noStr ∨
            (product.tle.getD ⟨none, none, none⟩).line2.getD noStr = noStr
        · simp [hlen, hmid, htle]
        · simp [hlen, hmid, htle]
          exact eq_comm
      · simp [hlen, hmid]

/-- The known haversine value for a quarter turn along the equator. -/
lemma hav_zero_ninety : haversine_km 0 0 0 90 = 6371 * (Real.pi / 2) := by
  simp only [haversine_km, radians]
  have h1 : ((0:ℝ) - 0) * Real.pi / 180 / 2.0 = 0 := by ring
  have h2 : (0:ℝ) * Real.pi / 180 = 0 := by ring
  have h3 : ((90:ℝ) - 0) * Real.pi / 180 / 2.0 = Real.pi / 4 := by ring
  rw [h1, h2, h3, Real.sin_zero, Real.cos_zero]
  have h4 : (0:ℝ) ^ 2 + 1 * 1 * Real.sin (Real.pi / 4) ^ 2 =
      Real.sin (Real.pi / 4) ^ 2 := by ring
  rw [h4]
  rw [Real.sqrt_sq (by rw [Real.sin_pi_div_four]; positivity)]
  rw [Real.arcsin_sin (by linarith [Real.pi_pos]) (by linarith [Real.pi_pos])]
  ring

/-- The success path under the same hypotheses, stated directly. -/
lemma compute_product_metrics_eq_ok {subpointAt : ℝ → Subpoint}
    {isoUTC : ℝ → String} {product : Product} {w : ℤ}
    (hw : (product.projection_cfg.getD ⟨none, none⟩).image_width = some w)
    (hlen : product.timestamps.length ≠ 0)
    (hmid : datetimeRangeOK (mid_ts_of product))
    (htle : ¬((product.tle.getD ⟨none, none, none⟩).line1.getD noStr = noStr ∨
      (product.tle.getD ⟨none, none, none⟩).line2.getD noStr = noStr)) :
    compute_product_metrics subpointAt isoUTC product =
      .ok (mkMetrics subpointAt isoUTC product w) :=
  compute_product_metrics_ok_iff.mpr ⟨w, hw, hlen, hmid, htle, rfl⟩

lemma prodA_headI : prodA.timestamps.headI = 0 := rfl

lemma prodA_getLastI : prodA.timestamps.getLastI = 60 := rfl

lemma prodA_mid : mid_ts_of prodA = 30 := by
  show (0.5 : ℝ) * ((0 : ℝ) + (60 : ℝ)) = 30
  norm_num

lemma propA_at_mid : propA 30 = ⟨0, 90, 500⟩ := by
  unfold propA
  rw [if_neg (by norm_num : ¬ (30:ℝ) < 30)]

lemma propA_at_first : propA 0 = ⟨0, 0, 500⟩ := by
  unfold propA
  rw [if_pos (by norm_num : (0:ℝ) < 30)]

lemma propA_at_last : propA 60 = ⟨0, 90, 500⟩ := by
  unfold propA
  rw [if_neg (by norm_num : ¬ (60:ℝ) < 30)]

lemma prodA_scan : scan_angle_of prodA = 90 := rfl

lemma tan_of_half_ninety : Real.tan (radians ((90:ℝ) / 2.0)) = 1 := by
  rw [show radians ((90:ℝ) / 2.0) = Real.pi / 4 by unfold radians; ring]
  exact Real.tan_pi_div_four

lemma swath_val_A : swath_val propA prodA = 1000 := by
  unfold swath_val
  rw [prodA_mid, propA_at_mid, prodA_scan]
  rw [tan_of_half_ninety]
  norm_num

lemma along_val_A : along_val propA prodA = 6371 * (Real.pi / 2) := by
  unfold along_val
  rw [prodA_headI, prodA_getLastI, propA_at_first, propA_at_last]
  exact hav_zero_ninety

/-- compute_product_metrics on the two-timestamp product `prodA` returns
the fully populated record `mA`. -/
lemma evalA : compute_product_metrics propA iso0 prodA = .ok mA := by
  have h : compute_product_metrics propA iso0 prodA =
      .ok (mkMetrics propA iso0 prodA 1000) :=
    compute_product_metrics_eq_ok rfl (by decide)
      (by rw [prodA_mid]; norm_num [datetimeRangeOK]) (by decide)
  rw [h]
  congr 1
  norm_num [mkMetrics, mA, optTruthy, iso0, prodA_scan, swath_val_A,
    along_val_A, prodA_mid, prodA_headI, prodA_getLastI, propA_at_mid,
    propA_at_first, propA_at_last, Real.pi_ne_zero]
  refine ⟨rfl, ?_, ?_, ?_⟩
  · show 6371 * (Real.pi / 2) * 1000 / (((2:ℕ) : ℝ)) =
      6371 * (Real.pi / 2) * 1000 / 2
    norm_num
  · show ¬ ([(0:ℝ), 60] = [])
    simp
  · show 6371 * (Real.pi / 2) * 1000 / (((2:ℕ) : ℝ)) * 1000 / 1000000 =
      6371 * (Real.pi / 2) * 1000 / 2 * 1000 / 1000000
    norm_num

lemma prodB_scan : scan_angle_of prodB = 90 := rfl

lemma prodB_mid : mid_ts_of prodB = 0 := by
  show (0.5 : ℝ) * ((0 : ℝ) + (0 : ℝ)) = 0
  norm_num

lemma swath_val_B : swath_val propB prodB = 1000 := by
  show 2.0 * (500:ℝ) * Real.tan (radians ((90:ℝ) / 2.0)) = 1000
  rw [tan_of_half_ninety]
  norm_num

lemma along_val_B : along_val propB prodB = 0 := by
  show haversine_km 0 0 0 0 = 0
  exact haversine_km_self 0 0

/-- compute_product_metrics on the single-timestamp product `prodB`
returns `mB`: swath fields populated, both area fields null. -/
lemma evalB : compute_product_metrics propB iso0 prodB = .ok mB := by
  have h : compute_product_metrics propB iso0 prodB =
      .ok (mkMetrics propB iso0 prodB 1000) :=
    compute_product_metrics_eq_ok rfl (by decide)
      (by rw [prodB_mid]; norm_num [datetimeRangeOK]) (by decide)
  rw [h]
  congr 1
  norm_num [mkMetrics, mB, optTruthy, iso0, propB, prodB_scan, swath_val_B,
    along_val_B]
  rfl

/-! ## Claim theorems -/

/-- C7: the haversine distance helper is symmetric — haversine(A,B) =
haversine(B,A) for every pair of points — and haversine(A,A) = 0 for every
point. -/
theorem c7_haversine_symm_and_self (lat1 lon1 lat2 lon2 : ℝ) :
    haversine_km lat1 lon1 lat2 lon2 = haversine_km lat2 lon2 lat1 lon1 ∧
      haversine_km lat1 lon1 lat1 lon1 = 0 :=
  ⟨haversine_km_comm lat1 lon1 lat2 lon2, haversine_km_self lat1 lon1⟩

/-- C3: with an image width present, compute_footprint on an empty
timestamp series fails with EmptyTimestampSeries (no record is produced),
and whenever it returns a record, image_height_px equals the number of
timestamps exactly — no samples are skipped. -/
theorem c3_empty_fails_and_height_exact (subAt : ℝ → Subpoint)
    (iso : ℝ → String) (prod : Product) (w : ℤ) (m : FootprintMetrics)
    (hw : (prod.projection_cfg.getD ⟨none, none⟩).image_width = some w) :
    (prod.timestamps = [] →
      compute_product_metrics subAt iso prod = .error .EmptyTimestampSeries) ∧
    (compute_product_metrics subAt iso prod = .ok m →
      m.image_height_px = prod.timestamps.length) := by
  constructor
  · intro hts
    simp [compute_product_metrics, hw, hts]
  · intro hok
    obtain ⟨w', _, _, _, _, rfl⟩ := compute_product_metrics_ok_iff.mp hok
    rfl

/-- Witness for C3 at a concrete empty-series product. -/
theorem c3_witness :
    (prodEW.projection_cfg.getD ⟨none, none⟩).image_width = some 3 ∧
    compute_product_metrics propB iso0 prodEW = .error .EmptyTimestampSeries :=
  ⟨rfl, (c3_empty_fails_and_height_exact propB iso0 prodEW 3 mB rfl).1 rfl⟩

/-- C4: whenever compute_footprint returns a record, its mid instant is
the arithmetic mean of the first and last timestamps: mid_datetime is the
ISO-UTC rendering of that mean, and mid_subpoint is the propagator's
subpoint at that mean. -/
theorem c4_mid_is_mean_of_first_last (subAt : ℝ → Subpoint)
    (iso : ℝ → String) (prod : Product) (m : FootprintMetrics)
    (hok : compute_product_metrics subAt iso prod = .ok m) :
    m.mid_datetime =
      iso (0.5 * (prod.timestamps.headI + prod.timestamps.getLastI)) ∧
    m.mid_subpoint =
      subAt (0.5 * (prod.timestamps.headI + prod.timestamps.getLastI)) := by
  obtain ⟨w, _, _, _, _, rfl⟩ := compute_product_metrics_ok_iff.mp hok
  exact ⟨rfl, rfl⟩

/-- Witness for C4 at the concrete product `prodB`. -/
theorem c4_witness :
    compute_product_metrics propB iso0 prodB = .ok mB ∧
    (mB.mid_datetime =
      iso0 (0.5 * (prodB.timestamps.headI + prodB.timestamps.getLastI)) ∧
    mB.mid_subpoint =
      propB (0.5 * (prodB.timestamps.headI + prodB.timestamps.getLastI))) :=
  ⟨evalB, c4_mid_is_mean_of_first_last propB iso0 prodB mB evalB⟩

/-- C5: whenever compute_footprint returns a record, the along-track
length is the haversine distance between the subpoints at the first and
last timestamps, and the along-track pixel size is length·1000 divided by
image_height_px. -/
theorem c5_along_track_formulas (subAt : ℝ → Subpoint) (iso : ℝ → String)
    (prod : Product) (m : FootprintMetrics)
    (hok : compute_product_metrics subAt iso prod = .ok m) :
    m.along_track_length_km =
      haversine_km (subAt prod.timestamps.headI).lat_deg
        (subAt prod.timestamps.headI).lon_deg
        (subAt prod.timestamps.getLastI).lat_deg
        (subAt prod.timestamps.getLastI).lon_deg ∧
    m.along_track_pixel_size_m =
      m.along_track_length_km * 1000 / (m.image_height_px : ℝ) := by
  obtain ⟨w, _, _, _, _, rfl⟩ := compute_product_metrics_ok_iff.mp hok
  refine ⟨rfl, ?_⟩
  norm_num [mkMetrics]

/-- Witness for C5 at the concrete product `prodB`. -/
theorem c5_witness :
    compute_product_metrics propB iso0 prodB = .ok mB ∧
    (mB.along_track_length_km =
      haversine_km (propB prodB.timestamps.headI).lat_deg
        (propB prodB.timestamps.headI).lon_deg
        (propB prodB.timestamps.getLastI).lat_deg
        (propB prodB.timestamps.getLastI).lon_deg ∧
    mB.along_track_pixel_size_m =
      mB.along_track_length_km * 1000 / (mB.image_height_px : ℝ)) :=
  ⟨evalB, c5_along_track_formulas propB iso0 prodB mB evalB⟩

/-- C9: whenever both area fields are non-null, the per-pixel area equals
the total ground area divided by the number of pixels
image_width_px · image_height_px, in exact real arithmetic. -/
theorem c9_per_pixel_is_area_over_grid (subAt : ℝ → Subpoint)
    (iso : ℝ → String) (prod : Product) (m : FootprintMetrics) (t p : ℝ)
    (hok : compute_product_metrics subAt iso prod = .ok m)
    (ht : m.total_ground_area_km2 = some t)
    (hp : m.per_pixel_area_km2 = some p) :
    p = t / ((m.image_width_px : ℝ) * (m.image_height_px : ℝ)) := by
  obtain ⟨w, hw, hlen, hmidr, htle, rfl⟩ := compute_product_metrics_ok_iff.mp hok
  simp only [mkMetrics] at ht hp ⊢
  split_ifs at ht hp <;> simp_all [optTruthy]
  subst ht
  subst hp
  ring

/-- Witness for C9 at the concrete product `prodA`, where both area
fields are populated. -/
theorem c9_witness :
    compute_product_metrics propA iso0 prodA = .ok mA ∧
    mA.total_ground_area_km2 = some (1000 * (6371 * (Real.pi / 2))) ∧
    mA.per_pixel_area_km2 =
      some (6371 * (Real.pi / 2) * 1000 / 2 * 1000 / 1000000) ∧
    6371 * (Real.pi / 2) * 1000 / 2 * 1000 / 1000000 =
      1000 * (6371 * (Real.pi / 2)) /
        ((mA.image_width_px : ℝ) * (mA.image_height_px : ℝ)) :=
  ⟨evalA, rfl, rfl, c9_per_pixel_is_area_over_grid propA iso0 prodA mA
    (1000 * (6371 * (Real.pi / 2)))
    (6371 * (Real.pi / 2) * 1000 / 2 * 1000 / 1000000) evalA rfl rfl⟩

/-- C1 counterexample: on `prodB` — scan angle 90 > 0, altitude 500 km, a
valid single-timestamp geometry — the swath and across-track pixel-size
fields are non-null while both area fields are null, so the four
across-track fields are not null or non-null as a single group. -/
theorem c1_counterexample :
    compute_product_metrics propB iso0 prodB = .ok mB ∧
    scan_angle_of prodB = 90 ∧
    mB.across_track_swath_km ≠ none ∧
    mB.across_track_pixel_size_m ≠ none ∧
    mB.total_ground_area_km2 = none ∧
    mB.per_pixel_area_km2 = none :=
  ⟨evalB, rfl, by simp [mB], by simp [mB], rfl, rfl⟩

/-- C1 amended: when scan_angle is zero or absent all four across-track
fields are null; when scan_angle ≠ 0, nullability is decided per field by
value truthiness — with nonzero swath, nonzero image width and nonzero
along-track length all four are non-null, but with nonzero swath, nonzero
image width and zero along-track length, across_track_swath_km and
across_track_pixel_size_m are non-null while both area fields are null. -/
theorem c1_amended_nullability (subAt : ℝ → Subpoint) (iso : ℝ → String)
    (prod : Product) (m : FootprintMetrics)
    (hok : compute_product_metrics subAt iso prod = .ok m) :
    (scan_angle_of prod = 0 →
      m.across_track_swath_km = none ∧ m.across_track_pixel_size_m = none ∧
      m.total_ground_area_km2 = none ∧ m.per_pixel_area_km2 = none) ∧
    (scan_angle_of prod ≠ 0 → swath_val subAt prod ≠ 0 →
      (m.image_width_px : ℝ) ≠ 0 → along_val subAt prod ≠ 0 →
      m.across_track_swath_km ≠ none ∧ m.across_track_pixel_size_m ≠ none ∧
      m.total_ground_area_km2 ≠ none ∧ m.per_pixel_area_km2 ≠ none) ∧
    (scan_angle_of prod ≠ 0 → swath_val subAt prod ≠ 0 →
      (m.image_width_px : ℝ) ≠ 0 → along_val subAt prod = 0 →
      m.across_track_swath_km ≠ none ∧ m.across_track_pixel_size_m ≠ none ∧
      m.total_ground_area_km2 = none ∧ m.per_pixel_area_km2 = none) := by
  obtain ⟨w, hw, hlen, hmidr, htle, rfl⟩ := compute_product_metrics_ok_iff.mp hok
  have hlenR : ((prod.timestamps.length : ℕ) : ℝ) ≠ 0 := Nat.cast_ne_zero.mpr hlen
  refine ⟨?_, ?_, ?_⟩
  · intro hsa
    simp [mkMetrics, hsa, optTruthy]
  · intro hsa hs hwR ha
    have hwR' : (w : ℝ) ≠ 0 := hwR
    have hpv : swath_val subAt prod * 1000.0 / (w : ℝ) ≠ 0 :=
      div_ne_zero (mul_ne_zero hs (by norm_num)) hwR'
    have hpx : along_val subAt prod * 1000.0 /
        ((prod.timestamps.length : ℕ) : ℝ) ≠ 0 :=
      div_ne_zero (mul_ne_zero ha (by norm_num)) hlenR
    have hper : along_val subAt prod * 1000.0 /
        ((prod.timestamps.length : ℕ) : ℝ) *
        (swath_val subAt prod * 1000.0 / (w : ℝ)) / 1000000.0 ≠ 0 :=
      div_ne_zero (mul_ne_zero hpx hpv) (by norm_num)
    simp [mkMetrics, optTruthy, hsa, hs, hpv, mul_ne_zero hs ha, hper]
  · intro hsa hs hwR ha
    have hwR' : (w : ℝ) ≠ 0 := hwR
    have hpv : swath_val subAt prod * 1000.0 / (w : ℝ) ≠ 0 :=
      div_ne_zero (mul_ne_zero hs (by norm_num)) hwR'
    simp [mkMetrics, optTruthy, hsa, hs, ha, hpv]

/-- Witness for C1 (amended): at `prodA` all four fields are populated,
and at `prodB` (zero along-track length) the swath fields are populated
while both area fields are null. -/
theorem c1_witness :
    compute_product_metrics propA iso0 prodA = .ok mA ∧
    scan_angle_of prodA ≠ 0 ∧ swath_val propA prodA ≠ 0 ∧
    (mA.image_width_px : ℝ) ≠ 0 ∧ along_val propA prodA ≠ 0 ∧
    (mA.across_track_swath_km ≠ none ∧
      mA.across_track_pixel_size_m ≠ none ∧
      mA.total_ground_area_km2 ≠ none ∧ mA.per_pixel_area_km2 ≠ none) ∧
    compute_product_metrics propB iso0 prodB = .ok mB ∧
    along_val propB prodB = 0 ∧
    (mB.across_track_swath_km ≠ none ∧
      mB.across_track_pixel_size_m ≠ none ∧
      mB.total_ground_area_km2 = none ∧ mB.per_pixel_area_km2 = none) := by
  have hsa : scan_angle_of prodA ≠ 0 := by rw [prodA_scan]; norm_num
  have hs : swath_val propA prodA ≠ 0 := by rw [swath_val_A]; norm_num
  have hwr : (mA.image_width_px : ℝ) ≠ 0 := by norm_num [mA]
  have ha : along_val propA prodA ≠ 0 := by rw [along_val_A]; positivity
  have hsaB : scan_angle_of prodB ≠ 0 := by rw [prodB_scan]; norm_num
  have hsB : swath_val propB prodB ≠ 0 := by rw [swath_val_B]; norm_num
  have hwrB : (mB.image_width_px : ℝ) ≠ 0 := by norm_num [mB]
  exact ⟨evalA, hsa, hs, hwr, ha,
    (c1_amended_nullability propA iso0 prodA mA evalA).2.1 hsa hs hwr ha,
    evalB, along_val_B,
    (c1_amended_nullability propB iso0 prodB mB evalB).2.2 hsaB hsB hwrB
      along_val_B⟩

/-- C6 counterexample: on `prodB` the scan angle is 90 > 0 and the claim
asserts total_ground_area_km2 = swath_km × along_track_length_km (here
1000 × 0 = 0.0), but the code returns null for that field. -/
theorem c6_counterexample :
    compute_product_metrics propB iso0 prodB = .ok mB ∧
    0 < scan_angle_of prodB ∧
    mB.total_ground_area_km2 = none ∧
    mB.total_ground_area_km2 ≠
      some (swath_val propB prodB * along_val propB prodB) :=
  ⟨evalB, by rw [prodB_scan]; norm_num, rfl, by simp [mB]⟩

/-- C6 amended: with scan_angle > 0, nonzero computed swath and nonzero
image width, the swath and across-track pixel-size formulas hold exactly;
the total area equals swath × along-track length when that product is
nonzero and is null when it is zero; fov_deg is scan_angle verbatim
whenever scan_angle ≠ 0 — with no side condition, covering negative
angles and angles whose computed swath is zero — and null when
scan_angle is zero or absent. -/
theorem c6_amended_formulas (subAt : ℝ → Subpoint) (iso : ℝ → String)
    (prod : Product) (m : FootprintMetrics)
    (hok : compute_product_metrics subAt iso prod = .ok m) :
    (0 < scan_angle_of prod → swath_val subAt prod ≠ 0 →
      (m.image_width_px : ℝ) ≠ 0 →
      m.across_track_swath_km = some (swath_val subAt prod) ∧
      m.across_track_pixel_size_m =
        some (swath_val subAt prod * 1000 / (m.image_width_px : ℝ)) ∧
      (swath_val subAt prod * along_val subAt prod ≠ 0 →
        m.total_ground_area_km2 =
          some (swath_val subAt prod * along_val subAt prod)) ∧
      (swath_val subAt prod * along_val subAt prod = 0 →
        m.total_ground_area_km2 = none)) ∧
    (scan_angle_of prod ≠ 0 → m.fov_deg = some (scan_angle_of prod)) ∧
    (scan_angle_of prod = 0 → m.fov_deg = none) := by
  obtain ⟨w, hw, hlen, hmidr, htle, rfl⟩ := compute_product_metrics_ok_iff.mp hok
  refine ⟨?_, ?_, ?_⟩
  · intro hsa hs hwR
    have hsa' : scan_angle_of prod ≠ 0 := ne_of_gt hsa
    have hwR' : (w : ℝ) ≠ 0 := hwR
    have hw0 : w ≠ 0 := by exact_mod_cast hwR'
    have hpv : swath_val subAt prod * 1000.0 / (w : ℝ) ≠ 0 :=
      div_ne_zero (mul_ne_zero hs (by norm_num)) hwR'
    refine ⟨?_, ?_, ?_, ?_⟩
    · simp [mkMetrics, optTruthy, hsa', hs]
    · norm_num [mkMetrics, optTruthy, hsa', hs, hpv, hw0]
    · intro hta
      simp [mkMetrics, optTruthy, hsa', hs, hta]
    · intro hta
      simp [mkMetrics, optTruthy, hsa', hs, hta]
  · intro hsa
    simp [mkMetrics, hsa]
  · intro hsa
    simp [mkMetrics, hsa]

/-- Witness for C6 (amended) at `prodA`, exercising both the formula
branch and the unconditional fov branch. -/
theorem c6_witness :
    compute_product_metrics propA iso0 prodA = .ok mA ∧
    0 < scan_angle_of prodA ∧ swath_val propA prodA ≠ 0 ∧
    (mA.image_width_px : ℝ) ≠ 0 ∧
    (mA.across_track_swath_km = some (swath_val propA prodA) ∧
      mA.across_track_pixel_size_m =
        some (swath_val propA prodA * 1000 / (mA.image_width_px : ℝ)) ∧
      (swath_val propA prodA * along_val propA prodA ≠ 0 →
        mA.total_ground_area_km2 =
          some (swath_val propA prodA * along_val propA prodA)) ∧
      (swath_val propA prodA * along_val propA prodA = 0 →
        mA.total_ground_area_km2 = none)) ∧
    mA.fov_deg = some (scan_angle_of prodA) := by
  have hsa : 0 < scan_angle_of prodA := by rw [prodA_scan]; norm_num
  have hs : swath_val propA prodA ≠ 0 := by rw [swath_val_A]; norm_num
  have hwr : (mA.image_width_px : ℝ) ≠ 0 := by norm_num [mA]
  exact ⟨evalA, hsa, hs, hwr,
    (c6_amended_formulas propA iso0 prodA mA evalA).1 hsa hs hwr,
    (c6_amended_formulas propA iso0 prodA mA evalA).2.1 (ne_of_gt hsa)⟩

/-- C10: compute_footprint converts image_width before any other
validation — a product lacking projection_cfg or image_width fails with
the conversion error regardless of timestamps or TLE — and with
image_width present, an empty series fails with EmptyTimestampSeries
before the TLE check is reached. -/
theorem c10_validation_order (subAt : ℝ → Subpoint) (iso : ℝ → String)
    (prod : Product) :
    ((prod.projection_cfg.getD ⟨none, none⟩).image_width = none →
      compute_product_metrics subAt iso prod =
        .error .ImageWidthConversionError) ∧
    (∀ w, (prod.projection_cfg.getD ⟨none, none⟩).image_width = some w →
      prod.timestamps = [] →
      compute_product_metrics subAt iso prod =
        .error .EmptyTimestampSeries) := by
  constructor
  · intro hw
    simp [compute_product_metrics, hw]
  · intro w hw hts
    simp [compute_product_metrics, hw, hts]

/-- Witness for C10: a product with no projection_cfg fails with the
conversion error, and a product with image_width, empty timestamps and no
TLE fails with EmptyTimestampSeries (not MissingTLE). -/
theorem c10_witness :
    (prodNoW.projection_cfg.getD ⟨none, none⟩).image_width = none ∧
    compute_product_metrics propB iso0 prodNoW =
      .error .ImageWidthConversionError ∧
    (prodEW.projection_cfg.getD ⟨none, none⟩).image_width = some 3 ∧
    prodEW.timestamps = [] ∧ prodEW.tle = none ∧
    compute_product_metrics propB iso0 prodEW =
      .error .EmptyTimestampSeries :=
  ⟨rfl, (c10_validation_order propB iso0 prodNoW).1 rfl, rfl, rfl, rfl,
    (c10_validation_order propB iso0 prodEW).2 3 rfl rfl⟩

/-- When every entry is either skipped or convertible, the loop succeeds
and returns exactly the records of the kept entries, in input order. -/
lemma pass_records_loop_eq (obs : ℝ → PassObs) (fmt : ℝ → String) :
    ∀ tss : List TSEntry,
      (∀ e ∈ tss, pySkip e ∨ utcfromtimestamp? e ≠ none) →
      pass_records_loop obs fmt tss =
        .ok ((validTimes tss).map (mkPassRecord obs fmt)) := by
  intro tss
  induction tss with
  | nil =>
    intro _
    simp [pass_records_loop, validTimes]
  | cons e rest ih =>
    intro hval
    have hrest : ∀ x ∈ rest, pySkip x ∨ utcfromtimestamp? x ≠ none :=
      fun x hx => hval x (List.mem_cons_of_mem e hx)
    by_cases hskip : pySkip e
    · simp [pass_records_loop, hskip, validTimes, ih hrest]
    · obtain ⟨t, ht⟩ : ∃ t, utcfromtimestamp? e = some t := by
        rcases hval e (List.mem_cons_self e rest) with h | h
        · exact absurd h hskip
        · exact Option.ne_none_iff_exists'.mp h
      simp [pass_records_loop, hskip, ht, validTimes, ih hrest]

/-- Modelled from the spec: kept entries plus skipped entries partition
the series, so the output length is the input length minus the skipped
count. -/
lemma validTimes_length :
    ∀ tss : List TSEntry,
      (∀ e ∈ tss, pySkip e ∨ utcfromtimestamp? e ≠ none) →
      (validTimes tss).length + countInvalid tss = tss.length := by
  intro tss
  induction tss with
  | nil =>
    intro _
    simp [validTimes, countInvalid]
  | cons e rest ih =>
    intro hval
    have hrest : ∀ x ∈ rest, pySkip x ∨ utcfromtimestamp? x ≠ none :=
      fun x hx => hval x (List.mem_cons_of_mem e hx)
    by_cases hskip : pySkip e
    · have := ih hrest
      simp only [validTimes, countInvalid, if_pos hskip, List.length_cons]
      omega
    · obtain ⟨t, ht⟩ : ∃ t, utcfromtimestamp? e = some t := by
        rcases hval e (List.mem_cons_self e rest) with h | h
        · exact absurd h hskip
        · exact Option.ne_none_iff_exists'.mp h
      have := ih hrest
      simp only [validTimes, countInvalid, if_neg hskip, ht,
        List.length_cons]
      omega

/-- C2 counterexample: a series whose only entry is +inf — an invalid
entry per the claim — is not skipped: the whole call fails in time
conversion instead of returning an empty sequence. -/
theorem c2_counterexample :
    compute_pass obs0 satOK0 fmt0 inpInf = .error .TimeConversionError ∧
    compute_pass obs0 satOK0 fmt0 inpInf ≠ .ok [] := by
  have h : compute_pass obs0 satOK0 fmt0 inpInf =
      .error .TimeConversionError := by
    simp [compute_pass, inpInf, tleDictEmpty, satOK0, pass_records_loop,
      pySkip, utcfromtimestamp?]
  refine ⟨h, ?_⟩
  rw [h]
  simp

/-- C2 amended: the loop skips exactly the entries that are non-numeric
or compare below zero; when every entry is either skipped or convertible
by utcfromtimestamp, the call returns one record per kept entry in input
order, and the output length plus the skipped count equals the input
length (an all-skipped series gives an empty output, not an error). -/
theorem c2_amended_skip_and_order (obs : String → String → ℝ → PassObs)
    (satOK : String → String → Prop) (fmt : ℝ → String)
    (nm l1 l2 : String) (tss : List TSEntry)
    (hsat : satOK l1 l2) (hne : tss ≠ [])
    (hval : ∀ e ∈ tss, pySkip e ∨ utcfromtimestamp? e ≠ none) :
    compute_pass obs satOK fmt ⟨some ⟨some nm, some l1, some l2⟩, some tss⟩ =
      .ok ((validTimes tss).map (mkPassRecord (obs l1 l2) fmt)) ∧
    (validTimes tss).length + countInvalid tss = tss.length := by
  constructor
  · simp only [compute_pass]
    rw [if_neg (by simp [tleDictEmpty])]
    rw [if_pos hsat, if_neg hne]
    exact pass_records_loop_eq (obs l1 l2) fmt tss hval
  · exact validTimes_length tss hval

/-- Witness for C2 (amended) on a concrete mixed series: two entries are
skipped (a non-numeric one and a negative one), two are kept in order. -/
theorem c2_witness :
    satOK0 strA strB ∧ tssW ≠ [] ∧ validTimes tssW = [5, 7] ∧
    countInvalid tssW = 2 ∧
    compute_pass obs0 satOK0 fmt0
        ⟨some ⟨some strS, some strA, some strB⟩, some tssW⟩ =
      .ok ((validTimes tssW).map (mkPassRecord (obs0 strA strB) fmt0)) ∧
    (validTimes tssW).length + countInvalid tssW = tssW.length := by
  have hval : ∀ e ∈ tssW, pySkip e ∨ utcfromtimestamp? e ≠ none := by
    intro e he
    simp only [tssW, List.mem_cons, List.not_mem_nil, or_false] at he
    rcases he with rfl | rfl | rfl | rfl
    · right
      norm_num [utcfromtimestamp?]
      simp
    · left
      trivial
    · left
      norm_num [pySkip]
    · right
      norm_num [utcfromtimestamp?]
      simp
  have hne : tssW ≠ [] := by simp [tssW]
  have h := c2_amended_skip_and_order obs0 satOK0 fmt0 strS strA strB tssW
    trivial hne hval
  refine ⟨trivial, hne, ?_, ?_, h.1, h.2⟩
  · norm_num [tssW, validTimes, pySkip, utcfromtimestamp?]
  · norm_num [tssW, countInvalid, pySkip]

/-- C8 counterexample: a present, non-empty TLE dict with empty line
strings does not trigger the MissingTLE gate of compute_pass — the lines
reach the propagator (here: one that rejects them) and its error
surfaces. -/
theorem c8_counterexample :
    compute_pass obs0 satOKF fmt0 inpEmptyLines = .error .PropagatorError ∧
    compute_pass obs0 satOKF fmt0 inpEmptyLines ≠ .error .MissingTLE := by
  have h : compute_pass obs0 satOKF fmt0 inpEmptyLines =
      .error .PropagatorError := by
    simp [compute_pass, inpEmptyLines, tleDictEmpty, satOKF]
  refine ⟨h, ?_⟩
  rw [h]
  simp

lemma tleDictEmpty_iff (d : TLEDict) :
    tleDictEmpty d ↔ d = ⟨none, none, none⟩ := by
  obtain ⟨n, l1, l2⟩ := d
  simp [tleDictEmpty]

/-- The loop can only fail with the time-conversion error: it never
produces MissingTLE. -/
lemma pass_records_loop_ne_missingTLE (obs : ℝ → PassObs)
    (fmt : ℝ → String) :
    ∀ tss : List TSEntry,
      pass_records_loop obs fmt tss ≠ .error .MissingTLE := by
  intro tss
  induction tss with
  | nil => simp [pass_records_loop]
  | cons e rest ih =>
    by_cases hskip : pySkip e
    · simpa [pass_records_loop, hskip] using ih
    · cases hu : utcfromtimestamp? e with
      | none => simp [pass_records_loop, hskip, hu]
      | some t =>
        simp only [pass_records_loop, if_neg hskip, hu]
        cases hr : pass_records_loop obs fmt rest with
        | error err =>
          rw [hr] at ih
          simp only [hr]
          exact ih
        | ok recs =>
          simp only [hr]
          simp

/-- compute_pass returns MissingTLE exactly when the tle mapping is
absent or the empty dict (the `if not tle` gate); every other failure
mode is a key error, a propagator error, an empty-series exit or a
time-conversion error. -/
lemma compute_pass_missingTLE_iff (obs : String → String → ℝ → PassObs)
    (satOK : String → String → Prop) (fmt : ℝ → String)
    (inp : PassInput) :
    compute_pass obs satOK fmt inp = .error .MissingTLE ↔
      inp.tle.getD ⟨none, none, none⟩ = ⟨none, none, none⟩ := by
  constructor
  · intro h3
    cases ht : inp.tle with
    | none => simp [ht]
    | some d3 =>
      simp only [ht, Option.getD_some]
      simp only [compute_pass, ht] at h3
      by_cases he : tleDictEmpty d3
      · exact (tleDictEmpty_iff d3).mp he
      · exfalso
        rw [if_neg he] at h3
        rcases hl1 : d3.line1 with _ | a <;>
          rcases hl2 : d3.line2 with _ | b <;>
          rcases hn : d3.name with _ | c <;>
          simp only [hl1, hl2, hn] at h3 <;>
          try exact absurd h3 (by simp)
        by_cases hs2 : satOK a b
        · rw [if_pos hs2] at h3
          cases hts3 : inp.timestamps with
          | none =>
            simp only [hts3] at h3
            exact absurd h3 (by simp)
          | some tss =>
            simp only [hts3] at h3
            by_cases hemp : tss = []
            · rw [if_pos hemp] at h3
              exact absurd h3 (by simp)
            · rw [if_neg hemp] at h3
              exact pass_records_loop_ne_missingTLE (obs a b) fmt tss h3
        · rw [if_neg hs2] at h3
          exact absurd h3 (by simp)
  · intro hemp
    cases ht : inp.tle with
    | none => simp [compute_pass, ht]
    | some d3 =>
      rw [ht] at hemp
      simp only [Option.getD_some] at hemp
      subst hemp
      simp [compute_pass, ht, tleDictEmpty]

/-- C8 amended: compute_footprint fails with MissingTLE whenever the TLE
is absent or a line is missing or empty, provided the earlier validations
pass (image width present, series non-empty, mid timestamp inside the
datetime range); compute_pass fails with MissingTLE exactly when the tle
mapping is absent or the empty dict — a present but incomplete dict
(any of the three keys missing) fails with a key error, and empty lines
go to the propagator. -/
theorem c8_amended_missing_tle (subAt : ℝ → Subpoint) (iso : ℝ → String)
    (prod : Product) (w : ℤ) (obs : String → String → ℝ → PassObs)
    (satOK : String → String → Prop) (fmt : ℝ → String)
    (inp2 : PassInput) (d : TLEDict)
    (hw : (prod.projection_cfg.getD ⟨none, none⟩).image_width = some w)
    (hts : prod.timestamps ≠ [])
    (hmid : datetimeRangeOK (mid_ts_of prod))
    (hln : (prod.tle.getD ⟨none, none, none⟩).line1.getD noStr = noStr ∨
      (prod.tle.getD ⟨none, none, none⟩).line2.getD noStr = noStr)
    (hinp2 : inp2.tle = some d) (hd : ¬ tleDictEmpty d)
    (hdk : d.line1 = none ∨ d.line2 = none ∨ d.name = none) :
    compute_product_metrics subAt iso prod = .error .MissingTLE ∧
    compute_pass obs satOK fmt inp2 = .error .TLEKeyError ∧
    (∀ inp : PassInput,
      compute_pass obs satOK fmt inp = .error .MissingTLE ↔
        inp.tle.getD ⟨none, none, none⟩ = ⟨none, none, none⟩) := by
  refine ⟨?_, ?_, fun inp => compute_pass_missingTLE_iff obs satOK fmt inp⟩
  · simp [compute_product_metrics, hw, hts, hmid, hln]
  · simp only [compute_pass, hinp2]
    rw [if_neg hd]
    rcases hdk with h | h | h
    · rcases hl2 : d.line2 with _ | b <;> rcases hn : d.name with _ | c <;>
        simp [h, hl2, hn]
    · rcases hl1 : d.line1 with _ | a <;> rcases hn : d.name with _ | c <;>
        simp [h, hl1, hn]
    · rcases hl1 : d.line1 with _ | a <;> rcases hl2 : d.line2 with _ | b <;>
        simp [h, hl1, hl2]

/-- Witness for C8 (amended) at concrete inputs: footprint with absent
tle fails MissingTLE; pass with a name-only tle dict fails with the key
error; and the MissingTLE characterization instantiated at an input with
no tle at all yields MissingTLE. -/
theorem c8_witness :
    (prodNoTLE.projection_cfg.getD ⟨none, none⟩).image_width = some 10 ∧
    prodNoTLE.timestamps ≠ [] ∧ prodNoTLE.tle = none ∧
    datetimeRangeOK (mid_ts_of prodNoTLE) ∧
    inpKeyErr.tle = some ⟨some strS, none, none⟩ ∧
    inpTLENone.tle = none ∧
    (compute_product_metrics propB iso0 prodNoTLE = .error .MissingTLE ∧
      compute_pass obs0 satOK0 fmt0 inpKeyErr = .error .TLEKeyError ∧
      (compute_pass obs0 satOK0 fmt0 inpTLENone = .error .MissingTLE ↔
        inpTLENone.tle.getD ⟨none, none, none⟩ = ⟨none, none, none⟩)) ∧
    compute_pass obs0 satOK0 fmt0 inpTLENone = .error .MissingTLE := by
  have hmid : datetimeRangeOK (mid_ts_of prodNoTLE) := by
    show datetimeRangeOK ((0.5 : ℝ) * ((1 : ℝ) + (1 : ℝ)))
    norm_num [datetimeRangeOK]
  have h := c8_amended_missing_tle propB iso0 prodNoTLE 10 obs0 satOK0 fmt0
    inpKeyErr ⟨some strS, none, none⟩ rfl (by simp [prodNoTLE]) hmid
    (Or.inl rfl) rfl (by simp [tleDictEmpty]) (Or.inl rfl)
  exact ⟨rfl, by simp [prodNoTLE], rfl, hmid, rfl, rfl,
    ⟨h.1, h.2.1, h.2.2 inpTLENone⟩, (h.2.2 inpTLENone).mpr rfl⟩
